import Mathlib

/-!
Verification of the gomp condition-builder library.

Shallow embedding of the repository sources:
  - QueryWrapper.go   : QueryWrapper, JoinOnWrapper and the Page type
  - DeleteWrapper.go  : DeleteWrapper
  - service.go        : ServiceImpl.Delete and getDB
  - the configuration struct (gomp.EnableSQLPrint / AllowGlobalUpdate /
    AllowGlobalDelete) loaded by InitConfig

Go values bound as query parameters are modelled by the type Val.
The external gorm execution context is modelled by the structure DB,
recording the WHERE tree, the selected columns and the debug flag that
the embedded repository code can influence.  Wrapper scopes are kept as
literal closures (DB -> DB), exactly as in the source.
-/

/-- A value bound as a SQL parameter (Go `any` at the call sites used here). -/
inductive Val where
  | int : Int → Val
  | str : String → Val
deriving DecidableEq, Repr

/-- A node of the execution context's WHERE tree: either a raw fragment with
its bound arguments, or a parenthesised group coming from a sub-builder.
`isOr` records the connector with which the node attaches to its siblings. -/
inductive WhereNode where
  | cond (query : String) (args : List Val) (isOr : Bool)
  | group (sub : List WhereNode) (isOr : Bool)

/-- Minimal model of the gorm execution context (`*gorm.DB`): the statement
state the repository code can affect through the boundary of §6. -/
structure DB where
  selectCols : List String
  wheres : List WhereNode
  debug : Bool

/-- A fresh execution context. -/
def DB.empty : DB := ⟨[], [], false⟩

/-- gorm `db.Where(query, args...)` with a string query: appends an
AND-connected condition node. -/
def DB.whereStr (db : DB) (query : String) (args : List Val) : DB :=
  { db with wheres := db.wheres ++ [WhereNode.cond query args false] }

/-- gorm `db.Or(query, args...)` with a string query: appends an
OR-connected condition node. -/
def DB.orWhere (db : DB) (query : String) (args : List Val) : DB :=
  { db with wheres := db.wheres ++ [WhereNode.cond query args true] }

/-- gorm `db.Where(subDB)`: appends the sub-context's WHERE conditions as one
AND-connected group; if the sub-context has no conditions nothing is added
(gorm's BuildCondition yields no expression for an empty sub-query). -/
def DB.whereSub (db : DB) (sub : DB) : DB :=
  if sub.wheres.isEmpty then db
  else { db with wheres := db.wheres ++ [WhereNode.group sub.wheres false] }

/-- gorm `db.Or(subDB)`: as whereSub but OR-connected. -/
def DB.orSub (db : DB) (sub : DB) : DB :=
  if sub.wheres.isEmpty then db
  else { db with wheres := db.wheres ++ [WhereNode.group sub.wheres true] }

/-- gorm `db.Session(&gorm.Session{NewDB: true})`: a fresh context. -/
def DB.sessionNew (_ : DB) : DB := DB.empty

/-- gorm `db.Select(cols)`: sets the projection. -/
def DB.select (db : DB) (cols : List String) : DB :=
  { db with selectCols := cols }

/-- gorm `db.Debug()`: turns SQL printing on. -/
def DB.debugOn (db : DB) : DB := { db with debug := true }

/-- Go `unicode.IsSpace` (the whitespace set used by strings.TrimSpace):
the Latin-1 whitespace characters plus the Unicode White_Space code
points. -/
def isGoSpace (c : Char) : Bool :=
  c = ' ' || c = '\t' || c = '\n' || c = '\x0b' || c = '\x0c' || c = '\r' ||
  c = '\u0085' || c = '\u00a0' ||
  c = '\u1680' || c = '\u2000' || c = '\u2001' || c = '\u2002' ||
  c = '\u2003' || c = '\u2004' || c = '\u2005' || c = '\u2006' ||
  c = '\u2007' || c = '\u2008' || c = '\u2009' || c = '\u200a' ||
  c = '\u2028' || c = '\u2029' || c = '\u202f' || c = '\u205f' ||
  c = '\u3000'

/-- The character list of Go `strings.TrimSpace(s)`: leading and trailing
whitespace removed. -/
def trimSpaceData (s : String) : List Char :=
  ((s.data.dropWhile isGoSpace).reverse.dropWhile isGoSpace).reverse

/-- The test `strings.TrimSpace(s) == ""` used by the guards in the source:
true iff the trimmed string is empty. -/
def trimSpaceIsEmpty (s : String) : Bool :=
  (trimSpaceData s).isEmpty

/-- One entry of JoinOnWrapper's condition list (`joinCondition` in the
source): fragment, bound arguments and the OR flag recorded at append time. -/
structure JoinCondition where
  query : String
  args : List Val
  isOr : Bool
deriving DecidableEq, Repr

/-- The join ON-clause builder (`JoinOnWrapper` in QueryWrapper.go). -/
structure JoinOnWrapper where
  conditions : List JoinCondition
  or : Bool
deriving DecidableEq, Repr

/-- `NewJoinOnWrapper()`. -/
def NewJoinOnWrapper : JoinOnWrapper := ⟨[], false⟩

/-- `JoinOnWrapper.addCondition`: skip blank fragments (still clearing the
OR flag), otherwise append a node carrying the current OR flag and clear it. -/
def JoinOnWrapper.addCondition (w : JoinOnWrapper) (query : String)
    (args : List Val) : JoinOnWrapper :=
  if trimSpaceIsEmpty query then { w with or := false }
  else { w with or := false,
                conditions := w.conditions ++ [⟨query, args, w.or⟩] }

/-- `JoinOnWrapper.Build`: render the condition list to one clause string and
the accumulated parameter list; empty list renders to ("", nil). -/
def JoinOnWrapper.Build (w : JoinOnWrapper) : String × List Val :=
  if w.conditions.length = 0 then ("", [])
  else
    let fold := w.conditions.foldl
      (fun (acc : String × List Val × Nat) c =>
        let sb := acc.1
        let args := acc.2.1
        let i := acc.2.2
        let sb := if i > 0 then (if c.isOr then sb ++ " OR " else sb ++ " AND ")
                  else sb
        let sb := sb ++ c.query
        let args := if c.args.length > 0 then args ++ c.args else args
        (sb, args, i + 1))
      ("", [], 0)
    (fold.1, fold.2.1)

/-- `JoinOnWrapper.Or`: with a nested builder argument, render the nested
group and append it (when nonblank) as one parenthesised node; with no
argument, set the OR flag. -/
def JoinOnWrapper.Or (w : JoinOnWrapper)
    (conditions : List (JoinOnWrapper → JoinOnWrapper)) : JoinOnWrapper :=
  match conditions with
  | f :: _ =>
    let sub := f NewJoinOnWrapper
    let built := sub.Build
    if trimSpaceIsEmpty built.1 = false then
      w.addCondition (("(" ++ built.1) ++ ")") built.2
    else w
  | [] => { w with or := true }

/-- `JoinOnWrapper.And`: with a nested builder argument, as Or; with no
argument, clear the OR flag. -/
def JoinOnWrapper.And (w : JoinOnWrapper)
    (conditions : List (JoinOnWrapper → JoinOnWrapper)) : JoinOnWrapper :=
  match conditions with
  | f :: _ =>
    let sub := f NewJoinOnWrapper
    let built := sub.Build
    if trimSpaceIsEmpty built.1 = false then
      w.addCondition (("(" ++ built.1) ++ ")") built.2
    else w
  | [] => { w with or := false }

/-- `JoinOnWrapper.Raw`. -/
def JoinOnWrapper.Raw (w : JoinOnWrapper) (query : String) (args : List Val) :
    JoinOnWrapper :=
  w.addCondition query args

/-- `JoinOnWrapper.Eq`. -/
def JoinOnWrapper.Eq (w : JoinOnWrapper) (column : String) (val : Val)
    (condition : List Bool) : JoinOnWrapper :=
  if condition.length > 0 && !(condition.getD 0 true) then w
  else w.addCondition (column ++ " = ?") [val]

/-- `JoinOnWrapper.EqColumn`. -/
def JoinOnWrapper.EqColumn (w : JoinOnWrapper) (leftColumn rightColumn : String)
    (condition : List Bool) : JoinOnWrapper :=
  if condition.length > 0 && !(condition.getD 0 true) then w
  else w.addCondition ((leftColumn ++ " = ") ++ rightColumn) []

/-- `JoinOnWrapper.Ne`. -/
def JoinOnWrapper.Ne (w : JoinOnWrapper) (column : String) (val : Val)
    (condition : List Bool) : JoinOnWrapper :=
  if condition.length > 0 && !(condition.getD 0 true) then w
  else w.addCondition (column ++ " <> ?") [val]

/-- `JoinOnWrapper.Gt`. -/
def JoinOnWrapper.Gt (w : JoinOnWrapper) (column : String) (val : Val)
    (condition : List Bool) : JoinOnWrapper :=
  if condition.length > 0 && !(condition.getD 0 true) then w
  else w.addCondition (column ++ " > ?") [val]

/-- `JoinOnWrapper.Ge`. -/
def JoinOnWrapper.Ge (w : JoinOnWrapper) (column : String) (val : Val)
    (condition : List Bool) : JoinOnWrapper :=
  if condition.length > 0 && !(condition.getD 0 true) then w
  else w.addCondition (column ++ " >= ?") [val]

/-- `JoinOnWrapper.Lt`. -/
def JoinOnWrapper.Lt (w : JoinOnWrapper) (column : String) (val : Val)
    (condition : List Bool) : JoinOnWrapper :=
  if condition.length > 0 && !(condition.getD 0 true) then w
  else w.addCondition (column ++ " < ?") [val]

/-- `JoinOnWrapper.Le`. -/
def JoinOnWrapper.Le (w : JoinOnWrapper) (column : String) (val : Val)
    (condition : List Bool) : JoinOnWrapper :=
  if condition.length > 0 && !(condition.getD 0 true) then w
  else w.addCondition (column ++ " <= ?") [val]

/-- `JoinOnWrapper.Like`. -/
def JoinOnWrapper.Like (w : JoinOnWrapper) (column : String) (val : String)
    (condition : List Bool) : JoinOnWrapper :=
  if condition.length > 0 && !(condition.getD 0 true) then w
  else w.addCondition (column ++ " LIKE ?") [Val.str (("%" ++ val) ++ "%")]

/-- `JoinOnWrapper.LikeLeft`. -/
def JoinOnWrapper.LikeLeft (w : JoinOnWrapper) (column : String) (val : String)
    (condition : List Bool) : JoinOnWrapper :=
  if condition.length > 0 && !(condition.getD 0 true) then w
  else w.addCondition (column ++ " LIKE ?") [Val.str ("%" ++ val)]

/-- `JoinOnWrapper.LikeRight`. -/
def JoinOnWrapper.LikeRight (w : JoinOnWrapper) (column : String) (val : String)
    (condition : List Bool) : JoinOnWrapper :=
  if condition.length > 0 && !(condition.getD 0 true) then w
  else w.addCondition (column ++ " LIKE ?") [Val.str (val ++ "%")]

/-- `JoinOnWrapper.In`. -/
def JoinOnWrapper.In (w : JoinOnWrapper) (column : String) (val : Val)
    (condition : List Bool) : JoinOnWrapper :=
  if condition.length > 0 && !(condition.getD 0 true) then w
  else w.addCondition (column ++ " IN (?)") [val]

/-- `JoinOnWrapper.NotIn`. -/
def JoinOnWrapper.NotIn (w : JoinOnWrapper) (column : String) (val : Val)
    (condition : List Bool) : JoinOnWrapper :=
  if condition.length > 0 && !(condition.getD 0 true) then w
  else w.addCondition (column ++ " NOT IN (?)") [val]

/-- `JoinOnWrapper.IsNull`. -/
def JoinOnWrapper.IsNull (w : JoinOnWrapper) (column : String)
    (condition : List Bool) : JoinOnWrapper :=
  if condition.length > 0 && !(condition.getD 0 true) then w
  else w.addCondition (column ++ " IS NULL") []

/-- `JoinOnWrapper.IsNotNull`. -/
def JoinOnWrapper.IsNotNull (w : JoinOnWrapper) (column : String)
    (condition : List Bool) : JoinOnWrapper :=
  if condition.length > 0 && !(condition.getD 0 true) then w
  else w.addCondition (column ++ " IS NOT NULL") []

/-- `JoinOnWrapper.Between`. -/
def JoinOnWrapper.Between (w : JoinOnWrapper) (column : String) (val1 val2 : Val)
    (condition : List Bool) : JoinOnWrapper :=
  if condition.length > 0 && !(condition.getD 0 true) then w
  else w.addCondition (column ++ " BETWEEN ? AND ?") [val1, val2]

/-- `JoinOnWrapper.NotBetween`. -/
def JoinOnWrapper.NotBetween (w : JoinOnWrapper) (column : String)
    (val1 val2 : Val) (condition : List Bool) : JoinOnWrapper :=
  if condition.length > 0 && !(condition.getD 0 true) then w
  else w.addCondition (column ++ " NOT BETWEEN ? AND ?") [val1, val2]

/-- The query builder (`QueryWrapper[T]` in QueryWrapper.go); the record type
parameter T is phantom and dropped.  Scopes are kept as closures over the
execution context, exactly as in the source. -/
structure QueryWrapper where
  scopes : List (DB → DB)
  selects : List String
  or : Bool

/-- `NewQueryWrapper[T]()`. -/
def NewQueryWrapper : QueryWrapper := ⟨[], [], false⟩

/-- `QueryWrapper.Apply`: apply the projection, then every scope in order. -/
def QueryWrapper.Apply (w : QueryWrapper) (db : DB) : DB :=
  let db := if w.selects.length > 0 then db.select w.selects else db
  w.scopes.foldl (fun d scope => scope d) db

/-- `QueryWrapper.addCondition`: capture the OR flag, clear it, and append a
scope that attaches the fragment with the captured connector. -/
def QueryWrapper.addCondition (w : QueryWrapper) (query : String)
    (args : List Val) : QueryWrapper :=
  let isOr := w.or
  { w with or := false,
           scopes := w.scopes ++ [fun db =>
             if isOr then db.orWhere query args else db.whereStr query args] }

/-- `QueryWrapper.Or`: with a nested builder argument, capture the OR flag,
clear it and append a scope that evaluates the nested builder on a fresh
session and composes it (both branches of the source call db.Or); with no
argument, set the OR flag. -/
def QueryWrapper.Or (w : QueryWrapper)
    (conditions : List (QueryWrapper → QueryWrapper)) : QueryWrapper :=
  match conditions with
  | f :: _ =>
    let isOr := w.or
    { w with or := false,
             scopes := w.scopes ++ [fun db =>
               let subDB := QueryWrapper.Apply (f NewQueryWrapper) db.sessionNew
               if isOr then db.orSub subDB else db.orSub subDB] }
  | [] => { w with or := true }

/-- `QueryWrapper.And`: with a nested builder argument, as Or but composing
with db.Or when the captured flag is set and db.Where otherwise; in every
case the OR flag ends cleared. -/
def QueryWrapper.And (w : QueryWrapper)
    (conditions : List (QueryWrapper → QueryWrapper)) : QueryWrapper :=
  match conditions with
  | f :: _ =>
    let isOr := w.or
    let w2 : QueryWrapper :=
      { w with or := false,
               scopes := w.scopes ++ [fun db =>
                 let subDB := QueryWrapper.Apply (f NewQueryWrapper) db.sessionNew
                 if isOr then db.orSub subDB else db.whereSub subDB] }
    { w2 with or := false }
  | [] => { w with or := false }

/-- `QueryWrapper.Eq`. -/
def QueryWrapper.Eq (w : QueryWrapper) (column : String) (val : Val)
    (condition : List Bool) : QueryWrapper :=
  if condition.length > 0 && !(condition.getD 0 true) then w
  else w.addCondition (column ++ " = ?") [val]

/-- `QueryWrapper.Ne`. -/
def QueryWrapper.Ne (w : QueryWrapper) (column : String) (val : Val)
    (condition : List Bool) : QueryWrapper :=
  if condition.length > 0 && !(condition.getD 0 true) then w
  else w.addCondition (column ++ " <> ?") [val]

/-- `QueryWrapper.Gt`. -/
def QueryWrapper.Gt (w : QueryWrapper) (column : String) (val : Val)
    (condition : List Bool) : QueryWrapper :=
  if condition.length > 0 && !(condition.getD 0 true) then w
  else w.addCondition (column ++ " > ?") [val]

/-- `QueryWrapper.Ge`. -/
def QueryWrapper.Ge (w : QueryWrapper) (column : String) (val : Val)
    (condition : List Bool) : QueryWrapper :=
  if condition.length > 0 && !(condition.getD 0 true) then w
  else w.addCondition (column ++ " >= ?") [val]

/-- `QueryWrapper.Lt`. -/
def QueryWrapper.Lt (w : QueryWrapper) (column : String) (val : Val)
    (condition : List Bool) : QueryWrapper :=
  if condition.length > 0 && !(condition.getD 0 true) then w
  else w.addCondition (column ++ " < ?") [val]

/-- `QueryWrapper.Le`. -/
def QueryWrapper.Le (w : QueryWrapper) (column : String) (val : Val)
    (condition : List Bool) : QueryWrapper :=
  if condition.length > 0 && !(condition.getD 0 true) then w
  else w.addCondition (column ++ " <= ?") [val]

/-- `QueryWrapper.Like`. -/
def QueryWrapper.Like (w : QueryWrapper) (column : String) (val : String)
    (condition : List Bool) : QueryWrapper :=
  if condition.length > 0 && !(condition.getD 0 true) then w
  else w.addCondition (column ++ " LIKE ?") [Val.str (("%" ++ val) ++ "%")]

/-- `QueryWrapper.LikeLeft`. -/
def QueryWrapper.LikeLeft (w : QueryWrapper) (column : String) (val : String)
    (condition : List Bool) : QueryWrapper :=
  if condition.length > 0 && !(condition.getD 0 true) then w
  else w.addCondition (column ++ " LIKE ?") [Val.str ("%" ++ val)]

/-- `QueryWrapper.LikeRight`. -/
def QueryWrapper.LikeRight (w : QueryWrapper) (column : String) (val : String)
    (condition : List Bool) : QueryWrapper :=
  if condition.length > 0 && !(condition.getD 0 true) then w
  else w.addCondition (column ++ " LIKE ?") [Val.str (val ++ "%")]

/-- `QueryWrapper.In`. -/
def QueryWrapper.In (w : QueryWrapper) (column : String) (val : Val)
    (condition : List Bool) : QueryWrapper :=
  if condition.length > 0 && !(condition.getD 0 true) then w
  else w.addCondition (column ++ " IN (?)") [val]

/-- `QueryWrapper.NotIn`. -/
def QueryWrapper.NotIn (w : QueryWrapper) (column : String) (val : Val)
    (condition : List Bool) : QueryWrapper :=
  if condition.length > 0 && !(condition.getD 0 true) then w
  else w.addCondition (column ++ " NOT IN (?)") [val]

/-- `QueryWrapper.IsNull`. -/
def QueryWrapper.IsNull (w : QueryWrapper) (column : String)
    (condition : List Bool) : QueryWrapper :=
  if condition.length > 0 && !(condition.getD 0 true) then w
  else w.addCondition (column ++ " IS NULL") []

/-- `QueryWrapper.IsNotNull`. -/
def QueryWrapper.IsNotNull (w : QueryWrapper) (column : String)
    (condition : List Bool) : QueryWrapper :=
  if condition.length > 0 && !(condition.getD 0 true) then w
  else w.addCondition (column ++ " IS NOT NULL") []

/-- `QueryWrapper.Between`. -/
def QueryWrapper.Between (w : QueryWrapper) (column : String) (val1 val2 : Val)
    (condition : List Bool) : QueryWrapper :=
  if condition.length > 0 && !(condition.getD 0 true) then w
  else w.addCondition (column ++ " BETWEEN ? AND ?") [val1, val2]

/-- `QueryWrapper.NotBetween`. -/
def QueryWrapper.NotBetween (w : QueryWrapper) (column : String)
    (val1 val2 : Val) (condition : List Bool) : QueryWrapper :=
  if condition.length > 0 && !(condition.getD 0 true) then w
  else w.addCondition (column ++ " NOT BETWEEN ? AND ?") [val1, val2]

/-- The delete builder (`DeleteWrapper[T]` in DeleteWrapper.go). -/
structure DeleteWrapper where
  scopes : List (DB → DB)
  or : Bool
  useSoftDelete : Bool

/-- `NewDeleteWrapper[T]()`: soft delete enabled by default. -/
def NewDeleteWrapper : DeleteWrapper := ⟨[], false, true⟩

/-- `DeleteWrapper.UseSoftDelete`. -/
def DeleteWrapper.UseSoftDelete (w : DeleteWrapper) (enabled : Bool) :
    DeleteWrapper :=
  { w with useSoftDelete := enabled }

/-- `DeleteWrapper.Apply`: apply every scope in order (the useSoftDelete
field is not consulted anywhere in the source). -/
def DeleteWrapper.Apply (w : DeleteWrapper) (db : DB) : DB :=
  w.scopes.foldl (fun d scope => scope d) db

/-- `DeleteWrapper.addCondition`. -/
def DeleteWrapper.addCondition (w : DeleteWrapper) (query : String)
    (args : List Val) : DeleteWrapper :=
  let isOr := w.or
  { w with or := false,
           scopes := w.scopes ++ [fun db =>
             if isOr then db.orWhere query args else db.whereStr query args] }

/-- `DeleteWrapper.Or`: same shape as QueryWrapper.Or (both branches of the
nested-argument scope call db.Or in the source). -/
def DeleteWrapper.Or (w : DeleteWrapper)
    (conditions : List (DeleteWrapper → DeleteWrapper)) : DeleteWrapper :=
  match conditions with
  | f :: _ =>
    let isOr := w.or
    { w with or := false,
             scopes := w.scopes ++ [fun db =>
               let subDB := DeleteWrapper.Apply (f NewDeleteWrapper) db.sessionNew
               if isOr then db.orSub subDB else db.orSub subDB] }
  | [] => { w with or := true }

/-- `DeleteWrapper.And`. -/
def DeleteWrapper.And (w : DeleteWrapper)
    (conditions : List (DeleteWrapper → DeleteWrapper)) : DeleteWrapper :=
  match conditions with
  | f :: _ =>
    let isOr := w.or
    let w2 : DeleteWrapper :=
      { w with or := false,
               scopes := w.scopes ++ [fun db =>
                 let subDB := DeleteWrapper.Apply (f NewDeleteWrapper) db.sessionNew
                 if isOr then db.orSub subDB else db.whereSub subDB] }
    { w2 with or := false }
  | [] => { w with or := false }

/-- `DeleteWrapper.Eq`. -/
def DeleteWrapper.Eq (w : DeleteWrapper) (column : String) (val : Val)
    (condition : List Bool) : DeleteWrapper :=
  if condition.length > 0 && !(condition.getD 0 true) then w
  else w.addCondition (column ++ " = ?") [val]

/-- `DeleteWrapper.Ne`. -/
def DeleteWrapper.Ne (w : DeleteWrapper) (column : String) (val : Val)
    (condition : List Bool) : DeleteWrapper :=
  if condition.length > 0 && !(condition.getD 0 true) then w
  else w.addCondition (column ++ " <> ?") [val]

/-- `DeleteWrapper.Gt`. -/
def DeleteWrapper.Gt (w : DeleteWrapper) (column : String) (val : Val)
    (condition : List Bool) : DeleteWrapper :=
  if condition.length > 0 && !(condition.getD 0 true) then w
  else w.addCondition (column ++ " > ?") [val]

/-- `DeleteWrapper.Ge`. -/
def DeleteWrapper.Ge (w : DeleteWrapper) (column : String) (val : Val)
    (condition : List Bool) : DeleteWrapper :=
  if condition.length > 0 && !(condition.getD 0 true) then w
  else w.addCondition (column ++ " >= ?") [val]

/-- `DeleteWrapper.Lt`. -/
def DeleteWrapper.Lt (w : DeleteWrapper) (column : String) (val : Val)
    (condition : List Bool) : DeleteWrapper :=
  if condition.length > 0 && !(condition.getD 0 true) then w
  else w.addCondition (column ++ " < ?") [val]

/-- `DeleteWrapper.Le`. -/
def DeleteWrapper.Le (w : DeleteWrapper) (column : String) (val : Val)
    (condition : List Bool) : DeleteWrapper :=
  if condition.length > 0 && !(condition.getD 0 true) then w
  else w.addCondition (column ++ " <= ?") [val]

/-- `DeleteWrapper.Like`. -/
def DeleteWrapper.Like (w : DeleteWrapper) (column : String) (val : String)
    (condition : List Bool) : DeleteWrapper :=
  if condition.length > 0 && !(condition.getD 0 true) then w
  else w.addCondition (column ++ " LIKE ?") [Val.str (("%" ++ val) ++ "%")]

/-- `DeleteWrapper.LikeLeft`. -/
def DeleteWrapper.LikeLeft (w : DeleteWrapper) (column : String) (val : String)
    (condition : List Bool) : DeleteWrapper :=
  if condition.length > 0 && !(condition.getD 0 true) then w
  else w.addCondition (column ++ " LIKE ?") [Val.str ("%" ++ val)]

/-- `DeleteWrapper.LikeRight`. -/
def DeleteWrapper.LikeRight (w : DeleteWrapper) (column : String) (val : String)
    (condition : List Bool) : DeleteWrapper :=
  if condition.length > 0 && !(condition.getD 0 true) then w
  else w.addCondition (column ++ " LIKE ?") [Val.str (val ++ "%")]

/-- `DeleteWrapper.In`. -/
def DeleteWrapper.In (w : DeleteWrapper) (column : String) (val : Val)
    (condition : List Bool) : DeleteWrapper :=
  if condition.length > 0 && !(condition.getD 0 true) then w
  else w.addCondition (column ++ " IN (?)") [val]

/-- `DeleteWrapper.NotIn`. -/
def DeleteWrapper.NotIn (w : DeleteWrapper) (column : String) (val : Val)
    (condition : List Bool) : DeleteWrapper :=
  if condition.length > 0 && !(condition.getD 0 true) then w
  else w.addCondition (column ++ " NOT IN (?)") [val]

/-- `DeleteWrapper.IsNull`. -/
def DeleteWrapper.IsNull (w : DeleteWrapper) (column : String)
    (condition : List Bool) : DeleteWrapper :=
  if condition.length > 0 && !(condition.getD 0 true) then w
  else w.addCondition (column ++ " IS NULL") []

/-- `DeleteWrapper.IsNotNull`. -/
def DeleteWrapper.IsNotNull (w : DeleteWrapper) (column : String)
    (condition : List Bool) : DeleteWrapper :=
  if condition.length > 0 && !(condition.getD 0 true) then w
  else w.addCondition (column ++ " IS NOT NULL") []

/-- `DeleteWrapper.Between`. -/
def DeleteWrapper.Between (w : DeleteWrapper) (column : String) (val1 val2 : Val)
    (condition : List Bool) : DeleteWrapper :=
  if condition.length > 0 && !(condition.getD 0 true) then w
  else w.addCondition (column ++ " BETWEEN ? AND ?") [val1, val2]

/-- `DeleteWrapper.NotBetween`. -/
def DeleteWrapper.NotBetween (w : DeleteWrapper) (column : String)
    (val1 val2 : Val) (condition : List Bool) : DeleteWrapper :=
  if condition.length > 0 && !(condition.getD 0 true) then w
  else w.addCondition (column ++ " NOT BETWEEN ? AND ?") [val1, val2]

/-- The configuration struct loaded by InitConfig (`config.Gomp` fields). -/
structure GompConfig where
  enableSQLPrint : Bool
  allowGlobalUpdate : Bool
  allowGlobalDelete : Bool
deriving DecidableEq, Repr

/-- `ServiceImpl.getDB`: return the context, with Debug() when
EnableSQLPrint is set (WithContext carries no modelled state). -/
def getDB (cfg : GompConfig) (db : DB) : DB :=
  if cfg.enableSQLPrint then db.debugOn else db

/-- `ServiceImpl.Delete`: obtain the context via getDB, apply the wrapper
when non-nil, and hand the resulting statement state to the execution
layer's terminal Delete call.  The returned DB is that statement state;
the source adds no guard of its own before executing. -/
def serviceDelete (cfg : GompConfig) (wrapper : Option DeleteWrapper)
    (db : DB) : DB :=
  let db := getDB cfg db
  match wrapper with
  | some w => w.Apply db
  | none => db

/-- The pagination object (`Page[T]` in QueryWrapper.go); int64 fields are
modelled as Int (the Go int conversions are value-preserving on 64-bit). -/
structure Page (T : Type) where
  Current : Int
  Size : Int
  Total : Int
  Records : List T

/-- `NewPage[T](current, size)`: Total keeps its zero value. -/
def NewPage (T : Type) (current size : Int) : Page T :=
  ⟨current, size, 0, []⟩

/-- Two's-complement reduction of an unbounded integer to 64 bits: the
value an int64 stores after overflow; wrap64 n = n whenever n lies in the
int64 range. -/
def wrap64 (n : Int) : Int := (n + 2 ^ 63) % 2 ^ 64 - 2 ^ 63

/-- `Page.Offset`: the int64 product (p.Current - 1) * p.Size wraps on
overflow.  The subtraction cannot overflow when Current > 0 holds for an
int64 value, and the final Go int conversion is the identity on a 64-bit
platform. -/
def Page.Offset {T : Type} (p : Page T) : Int :=
  if p.Current > 0 then wrap64 ((p.Current - 1) * p.Size) else 0

/-- `Page.Limit`. -/
def Page.Limit {T : Type} (p : Page T) : Int :=
  p.Size

/-- If the trimmed character list of a string is empty, every character of
the string is whitespace. -/
theorem trimSpaceData_eq_nil (s : String) (h : trimSpaceData s = []) :
    ∀ c ∈ s.data, isGoSpace c := by
  unfold trimSpaceData at h
  rw [List.reverse_eq_nil_iff, List.dropWhile_eq_nil_iff] at h
  intro c hc
  rw [← List.takeWhile_append_dropWhile isGoSpace s.data] at hc
  rcases List.mem_append.mp hc with h1 | h2
  · exact List.mem_takeWhile_imp h1
  · exact h c (List.mem_reverse.mpr h2)

/-- A string containing a non-whitespace character does not trim to empty. -/
theorem trimSpaceIsEmpty_false_of_mem (s : String) (c : Char)
    (hm : c ∈ s.data) (hs : isGoSpace c = false) :
    trimSpaceIsEmpty s = false := by
  unfold trimSpaceIsEmpty
  cases h : (trimSpaceData s).isEmpty with
  | false => rfl
  | true =>
    exfalso
    have hnil : trimSpaceData s = [] := List.isEmpty_iff.mp h
    have hsp := trimSpaceData_eq_nil s hnil c hm
    rw [hs] at hsp
    exact Bool.false_ne_true hsp

/-- A concatenation whose suffix holds a non-whitespace character does not
trim to empty: every operator fragment passes the blank-fragment guard. -/
theorem frag_not_blank (pre suf : String) (c : Char) (hc : c ∈ suf.data)
    (hs : isGoSpace c = false) :
    trimSpaceIsEmpty (pre ++ suf) = false := by
  apply trimSpaceIsEmpty_false_of_mem _ c _ hs
  show c ∈ pre.data ++ suf.data
  exact List.mem_append_right _ hc

/-- Applying a query builder whose scope list ends in one extra scope runs
that scope on the result of applying the rest (the or flag is not read by
Apply). -/
theorem queryApplyAppend (sc : List (DB → DB)) (sel : List String)
    (b bX : Bool) (c : DB → DB) (db : DB) :
    QueryWrapper.Apply ⟨sc ++ [c], sel, b⟩ db
      = c (QueryWrapper.Apply ⟨sc, sel, bX⟩ db) := by
  unfold QueryWrapper.Apply
  simp [List.foldl_append]

/-- Delete-builder analogue of apply_append (neither the or flag nor the
useSoftDelete flag is read by Apply). -/
theorem deleteApplyAppend (sc : List (DB → DB)) (b bX sd sdX : Bool)
    (c : DB → DB) (db : DB) :
    DeleteWrapper.Apply ⟨sc ++ [c], b, sd⟩ db
      = c (DeleteWrapper.Apply ⟨sc, bX, sdX⟩ db) := by
  unfold DeleteWrapper.Apply
  simp [List.foldl_append]

/-- JoinOnWrapper.addCondition on a fragment with a non-whitespace character
in its suffix always appends the node, with the OR flag current at call
time. -/
theorem joinOn_add_not_blank (w : JoinOnWrapper) (pre suf : String)
    (args : List Val) (c : Char) (hc : c ∈ suf.data) (hs : isGoSpace c = false) :
    (w.addCondition (pre ++ suf) args).conditions
      = w.conditions ++ [⟨pre ++ suf, args, w.or⟩] := by
  unfold JoinOnWrapper.addCondition
  rw [if_neg (by simp [frag_not_blank pre suf c hc hs])]

/-- C1: the claim requires an Apply-time guard for Update and Delete builders
with an empty condition list, rejecting the global mutation unless the
AllowGlobalUpdate / AllowGlobalDelete configuration flag opts in.  The code
has no such guard: the delete pipeline's outcome is completely independent
of both flags, and the empty-condition delete is handed to the execution
layer with no WHERE clause and no rejection. -/
theorem claim_C1_global_delete_unguarded :
    (∀ (cfg : GompConfig) (w : Option DeleteWrapper) (db : DB) (b : Bool),
      serviceDelete { cfg with allowGlobalDelete := b } w db
        = serviceDelete cfg w db)
    ∧ (∀ (cfg : GompConfig) (w : Option DeleteWrapper) (db : DB) (b : Bool),
      serviceDelete { cfg with allowGlobalUpdate := b } w db
        = serviceDelete cfg w db)
    ∧ (∀ (cfg : GompConfig) (db : DB),
      (serviceDelete cfg (some NewDeleteWrapper) db).wheres = db.wheres) := by
  refine ⟨fun _ _ _ _ => rfl, fun _ _ _ _ => rfl, fun cfg db => ?_⟩
  show (getDB cfg db).wheres = db.wheres
  unfold getDB
  split <;> rfl

/-- C2 counterexample: on the query builder with no prior plain Or call
(pendingConnector AND), Or(nestedFn) appends the nested group with the OR
connector, not with AND as the claim states: both branches of the source's
scope call db.Or. -/
theorem claim_C2_counterexample :
    ((NewQueryWrapper.Or [fun s => s.Eq "a" (Val.int 1) []]).Apply DB.empty).wheres
      = [WhereNode.group [WhereNode.cond "a = ?" [Val.int 1] false] true]
    ∧ WhereNode.group [WhereNode.cond "a = ?" [Val.int 1] false] true
      ≠ WhereNode.group [WhereNode.cond "a = ?" [Val.int 1] false] false := by
  refine ⟨rfl, ?_⟩
  intro hcontra
  injection hcontra with h1 h2
  exact Bool.noConfusion h2

/-- C2 amended: for the join-on builder, Or(nestedFn) with a nonempty nested
group appends it as one node using the pendingConnector captured at call
time (OR after a plain Or(), AND otherwise) and resets the pending connector
to AND; for the query builder, Or(nestedFn) always appends the nonempty
nested group with the OR connector regardless of the captured
pendingConnector, and also resets the pending connector to AND. -/
theorem claim_C2_amended :
    (∀ (w : JoinOnWrapper) (f : JoinOnWrapper → JoinOnWrapper),
      trimSpaceIsEmpty (f NewJoinOnWrapper).Build.1 = false →
        (w.Or [f]).conditions
          = w.conditions
            ++ [⟨("(" ++ (f NewJoinOnWrapper).Build.1) ++ ")",
                 (f NewJoinOnWrapper).Build.2, w.or⟩]
        ∧ (w.Or [f]).or = false)
    ∧ (∀ (w : QueryWrapper) (f : QueryWrapper → QueryWrapper) (db : DB),
      ((f NewQueryWrapper).Apply DB.empty).wheres.isEmpty = false →
        ((w.Or [f]).Apply db).wheres
          = (w.Apply db).wheres
            ++ [WhereNode.group ((f NewQueryWrapper).Apply DB.empty).wheres true]
        ∧ (w.Or [f]).or = false) := by
  constructor
  · intro w f h
    have hOr : w.Or [f]
        = w.addCondition (("(" ++ (f NewJoinOnWrapper).Build.1) ++ ")")
            (f NewJoinOnWrapper).Build.2 := by
      show (if trimSpaceIsEmpty (f NewJoinOnWrapper).Build.1 = false
            then w.addCondition (("(" ++ (f NewJoinOnWrapper).Build.1) ++ ")")
                   (f NewJoinOnWrapper).Build.2
            else w)
          = w.addCondition (("(" ++ (f NewJoinOnWrapper).Build.1) ++ ")")
              (f NewJoinOnWrapper).Build.2
      exact if_pos h
    rw [hOr]
    constructor
    · exact joinOn_add_not_blank w ("(" ++ (f NewJoinOnWrapper).Build.1) ")"
        (f NewJoinOnWrapper).Build.2 (')') (by decide) (by decide)
    · unfold JoinOnWrapper.addCondition
      split <;> rfl
  · intro w f db h
    constructor
    · have h2 : (w.Or [f]).Apply db
          = (w.Apply db).orSub (QueryWrapper.Apply (f NewQueryWrapper) DB.empty) := by
        refine Eq.trans (queryApplyAppend w.scopes w.selects false w.or
          (fun db =>
            let subDB := QueryWrapper.Apply (f NewQueryWrapper) db.sessionNew
            if w.or then db.orSub subDB else db.orSub subDB) db) ?_
        cases w.or <;> rfl
      rw [h2]
      unfold DB.orSub
      rw [if_neg (by simp [h])]
    · rfl

/-- C2 amended witness: concrete instances discharging the nonempty-nested
hypotheses of the amended theorem. -/
theorem claim_C2_amended_witness :
    trimSpaceIsEmpty
        ((fun s : JoinOnWrapper => s.Eq "x" (Val.int 5) []) NewJoinOnWrapper).Build.1
      = false
    ∧ (NewJoinOnWrapper.Or [fun s => s.Eq "x" (Val.int 5) []]).conditions
        = NewJoinOnWrapper.conditions
          ++ [⟨("("
                ++ ((fun s : JoinOnWrapper => s.Eq "x" (Val.int 5) []) NewJoinOnWrapper).Build.1)
                ++ ")",
               ((fun s : JoinOnWrapper => s.Eq "x" (Val.int 5) []) NewJoinOnWrapper).Build.2,
               NewJoinOnWrapper.or⟩]
    ∧ ((NewQueryWrapper.Or [fun s => s.Eq "x" (Val.int 5) []]).Apply DB.empty).wheres
        = (NewQueryWrapper.Apply DB.empty).wheres
          ++ [WhereNode.group
                (((fun s : QueryWrapper => s.Eq "x" (Val.int 5) []) NewQueryWrapper).Apply
                  DB.empty).wheres true] :=
  ⟨by decide,
   (claim_C2_amended.1 NewJoinOnWrapper (fun s => s.Eq "x" (Val.int 5) [])
      (by decide)).1,
   (claim_C2_amended.2 NewQueryWrapper (fun s => s.Eq "x" (Val.int 5) [])
      DB.empty (by decide)).1⟩

/-- C3: a nested-group call (And or Or with a callback) whose callback adds
nothing appends nothing: on the join-on builder the wrapper is unchanged, and
on the query and delete builders the applied execution context is identical
to the one produced without the call. -/
theorem claim_C3_empty_nested_noop :
    (∀ (w : JoinOnWrapper) (f : JoinOnWrapper → JoinOnWrapper),
      f NewJoinOnWrapper = NewJoinOnWrapper →
        w.And [f] = w ∧ w.Or [f] = w)
    ∧ (∀ (w : QueryWrapper) (f : QueryWrapper → QueryWrapper) (db : DB),
      f NewQueryWrapper = NewQueryWrapper →
        (w.And [f]).Apply db = w.Apply db ∧ (w.Or [f]).Apply db = w.Apply db)
    ∧ (∀ (w : DeleteWrapper) (f : DeleteWrapper → DeleteWrapper) (db : DB),
      f NewDeleteWrapper = NewDeleteWrapper →
        (w.And [f]).Apply db = w.Apply db ∧ (w.Or [f]).Apply db = w.Apply db) := by
  refine ⟨fun w f h => ?_, fun w f db h => ?_, fun w f db h => ?_⟩
  · have hb : (f NewJoinOnWrapper).Build = ("", []) := by rw [h]; rfl
    constructor <;>
    · simp only [JoinOnWrapper.And, JoinOnWrapper.Or, hb]
      rw [if_neg (by decide)]
  · constructor
    · refine Eq.trans (queryApplyAppend w.scopes w.selects false w.or
        (fun db =>
          let subDB := QueryWrapper.Apply (f NewQueryWrapper) db.sessionNew
          if w.or then db.orSub subDB else db.whereSub subDB) db) ?_
      simp only [h]
      cases w.or <;> rfl
    · refine Eq.trans (queryApplyAppend w.scopes w.selects false w.or
        (fun db =>
          let subDB := QueryWrapper.Apply (f NewQueryWrapper) db.sessionNew
          if w.or then db.orSub subDB else db.orSub subDB) db) ?_
      simp only [h]
      cases w.or <;> rfl
  · constructor
    · refine Eq.trans (deleteApplyAppend w.scopes false w.or
        w.useSoftDelete w.useSoftDelete
        (fun db =>
          let subDB := DeleteWrapper.Apply (f NewDeleteWrapper) db.sessionNew
          if w.or then db.orSub subDB else db.whereSub subDB) db) ?_
      simp only [h]
      cases w.or <;> rfl
    · refine Eq.trans (deleteApplyAppend w.scopes false w.or
        w.useSoftDelete w.useSoftDelete
        (fun db =>
          let subDB := DeleteWrapper.Apply (f NewDeleteWrapper) db.sessionNew
          if w.or then db.orSub subDB else db.orSub subDB) db) ?_
      simp only [h]
      cases w.or <;> rfl

/-- C3 witness: the identity callback adds no clauses, and the nested-group
call after Eq("a",1) changes nothing. -/
theorem claim_C3_witness :
    ((fun s : JoinOnWrapper => s) NewJoinOnWrapper = NewJoinOnWrapper)
    ∧ (NewJoinOnWrapper.Eq "a" (Val.int 1) []).And [fun s => s]
        = NewJoinOnWrapper.Eq "a" (Val.int 1) []
    ∧ ((NewQueryWrapper.Eq "a" (Val.int 1) []).And [fun s => s]).Apply DB.empty
        = (NewQueryWrapper.Eq "a" (Val.int 1) []).Apply DB.empty :=
  ⟨rfl,
   (claim_C3_empty_nested_noop.1 (NewJoinOnWrapper.Eq "a" (Val.int 1) [])
      (fun s => s) rfl).1,
   (claim_C3_empty_nested_noop.2.1 (NewQueryWrapper.Eq "a" (Val.int 1) [])
      (fun s => s) DB.empty rfl).1⟩

/-- C4: the claim requires the soft-delete toggle to change the produced
statement kind.  The code never reads the useSoftDelete field: the applied
statement, and the whole delete pipeline, are identical for both toggle
values. -/
theorem claim_C4_soft_delete_toggle_ignored :
    (∀ (w : DeleteWrapper) (b1 b2 : Bool) (db : DB),
      (w.UseSoftDelete b1).Apply db = (w.UseSoftDelete b2).Apply db)
    ∧ (∀ (cfg : GompConfig) (w : DeleteWrapper) (b : Bool) (db : DB),
      serviceDelete cfg (some (w.UseSoftDelete b)) db
        = serviceDelete cfg (some w) db) :=
  ⟨fun _ _ _ _ => rfl, fun _ _ _ _ => rfl⟩

/-- C5: on every builder, addCondition reads the pendingConnector once for
the appended clause and resets it to AND: after the call the or flag is
false, and the appended clause (or scope) carries the flag value current at
call time. -/
theorem claim_C5_pending_connector_reset :
    (∀ (w : JoinOnWrapper) (q : String) (args : List Val),
      (w.addCondition q args).or = false
      ∧ (w.addCondition q args).conditions
          = (if trimSpaceIsEmpty q then w.conditions
             else w.conditions ++ [⟨q, args, w.or⟩]))
    ∧ (∀ (w : QueryWrapper) (q : String) (args : List Val) (db : DB),
      (w.addCondition q args).or = false
      ∧ (w.addCondition q args).Apply db
          = (if w.or then (w.Apply db).orWhere q args
             else (w.Apply db).whereStr q args))
    ∧ (∀ (w : DeleteWrapper) (q : String) (args : List Val) (db : DB),
      (w.addCondition q args).or = false
      ∧ (w.addCondition q args).Apply db
          = (if w.or then (w.Apply db).orWhere q args
             else (w.Apply db).whereStr q args)) := by
  refine ⟨fun w q args => ?_, fun w q args db => ?_, fun w q args db => ?_⟩
  · cases h : trimSpaceIsEmpty q <;>
      simp [JoinOnWrapper.addCondition, h]
  · exact ⟨rfl,
      queryApplyAppend w.scopes w.selects false w.or
        (fun db => if w.or then db.orWhere q args else db.whereStr q args) db⟩
  · exact ⟨rfl,
      deleteApplyAppend w.scopes false w.or w.useSoftDelete w.useSoftDelete
        (fun db => if w.or then db.orWhere q args else db.whereStr q args) db⟩

/-- C6: on every builder, each operator method called with a trailing false
include flag is a full no-op: the returned builder equals the input builder,
so clause list, bound parameters and pendingConnector are all unchanged. -/
theorem claim_C6_include_flag_noop :
    (∀ (w : JoinOnWrapper) (c x : String) (v v2 : Val),
      w.Eq c v [false] = w ∧ w.Ne c v [false] = w ∧ w.Gt c v [false] = w
      ∧ w.Ge c v [false] = w ∧ w.Lt c v [false] = w ∧ w.Le c v [false] = w
      ∧ w.Like c x [false] = w ∧ w.LikeLeft c x [false] = w
      ∧ w.LikeRight c x [false] = w ∧ w.In c v [false] = w
      ∧ w.NotIn c v [false] = w ∧ w.IsNull c [false] = w
      ∧ w.IsNotNull c [false] = w ∧ w.Between c v v2 [false] = w
      ∧ w.NotBetween c v v2 [false] = w)
    ∧ (∀ (w : QueryWrapper) (c x : String) (v v2 : Val),
      w.Eq c v [false] = w ∧ w.Ne c v [false] = w ∧ w.Gt c v [false] = w
      ∧ w.Ge c v [false] = w ∧ w.Lt c v [false] = w ∧ w.Le c v [false] = w
      ∧ w.Like c x [false] = w ∧ w.LikeLeft c x [false] = w
      ∧ w.LikeRight c x [false] = w ∧ w.In c v [false] = w
      ∧ w.NotIn c v [false] = w ∧ w.IsNull c [false] = w
      ∧ w.IsNotNull c [false] = w ∧ w.Between c v v2 [false] = w
      ∧ w.NotBetween c v v2 [false] = w)
    ∧ (∀ (w : DeleteWrapper) (c x : String) (v v2 : Val),
      w.Eq c v [false] = w ∧ w.Ne c v [false] = w ∧ w.Gt c v [false] = w
      ∧ w.Ge c v [false] = w ∧ w.Lt c v [false] = w ∧ w.Le c v [false] = w
      ∧ w.Like c x [false] = w ∧ w.LikeLeft c x [false] = w
      ∧ w.LikeRight c x [false] = w ∧ w.In c v [false] = w
      ∧ w.NotIn c v [false] = w ∧ w.IsNull c [false] = w
      ∧ w.IsNotNull c [false] = w ∧ w.Between c v v2 [false] = w
      ∧ w.NotBetween c v v2 [false] = w) := by
  refine ⟨fun w c x v v2 => ?_, fun w c x v v2 => ?_, fun w c x v v2 => ?_⟩ <;>
    exact ⟨rfl, rfl, rfl, rfl, rfl, rfl, rfl, rfl, rfl, rfl, rfl, rfl, rfl, rfl, rfl⟩

/-- C7: the join-on builder built by EqColumn("a.id","b.a_id").Gt("b.amt",10)
renders to the clause "a.id = b.a_id AND b.amt > ?" with parameter list [10],
and rendering twice from the same unchanged instance yields identical
output (Build reads the builder without mutating it). -/
theorem claim_C7_joinon_roundtrip :
    ((NewJoinOnWrapper.EqColumn "a.id" "b.a_id" []).Gt "b.amt" (Val.int 10) []).Build
      = ("a.id = b.a_id AND b.amt > ?", [Val.int 10])
    ∧ ((NewJoinOnWrapper.EqColumn "a.id" "b.a_id" []).Gt "b.amt" (Val.int 10) []).Build
      = ((NewJoinOnWrapper.EqColumn "a.id" "b.a_id" []).Gt "b.amt" (Val.int 10) []).Build :=
  ⟨by decide, rfl⟩

/-- C8: on every builder, Like binds the parameter wrapped with percent on
both sides, LikeLeft on the left, LikeRight on the right, and the fragment
is always the column followed by " LIKE ?" with the value never interpolated
into the fragment string. -/
theorem claim_C8_like_binding :
    (∀ (w : JoinOnWrapper) (col x : String),
      (w.Like col x []).conditions
        = w.conditions ++ [⟨col ++ " LIKE ?", [Val.str (("%" ++ x) ++ "%")], w.or⟩]
      ∧ (w.LikeLeft col x []).conditions
        = w.conditions ++ [⟨col ++ " LIKE ?", [Val.str ("%" ++ x)], w.or⟩]
      ∧ (w.LikeRight col x []).conditions
        = w.conditions ++ [⟨col ++ " LIKE ?", [Val.str (x ++ "%")], w.or⟩])
    ∧ (∀ (w : QueryWrapper) (col x : String) (db : DB),
      (w.Like col x []).Apply db
        = (if w.or then (w.Apply db).orWhere (col ++ " LIKE ?") [Val.str (("%" ++ x) ++ "%")]
           else (w.Apply db).whereStr (col ++ " LIKE ?") [Val.str (("%" ++ x) ++ "%")])
      ∧ (w.LikeLeft col x []).Apply db
        = (if w.or then (w.Apply db).orWhere (col ++ " LIKE ?") [Val.str ("%" ++ x)]
           else (w.Apply db).whereStr (col ++ " LIKE ?") [Val.str ("%" ++ x)])
      ∧ (w.LikeRight col x []).Apply db
        = (if w.or then (w.Apply db).orWhere (col ++ " LIKE ?") [Val.str (x ++ "%")]
           else (w.Apply db).whereStr (col ++ " LIKE ?") [Val.str (x ++ "%")]))
    ∧ (∀ (w : DeleteWrapper) (col x : String) (db : DB),
      (w.Like col x []).Apply db
        = (if w.or then (w.Apply db).orWhere (col ++ " LIKE ?") [Val.str (("%" ++ x) ++ "%")]
           else (w.Apply db).whereStr (col ++ " LIKE ?") [Val.str (("%" ++ x) ++ "%")])
      ∧ (w.LikeLeft col x []).Apply db
        = (if w.or then (w.Apply db).orWhere (col ++ " LIKE ?") [Val.str ("%" ++ x)]
           else (w.Apply db).whereStr (col ++ " LIKE ?") [Val.str ("%" ++ x)])
      ∧ (w.LikeRight col x []).Apply db
        = (if w.or then (w.Apply db).orWhere (col ++ " LIKE ?") [Val.str (x ++ "%")]
           else (w.Apply db).whereStr (col ++ " LIKE ?") [Val.str (x ++ "%")])) := by
  refine ⟨fun w col x => ?_, fun w col x db => ?_, fun w col x db => ?_⟩
  · exact ⟨joinOn_add_not_blank w col " LIKE ?" _ 'L' (by decide) (by decide),
      joinOn_add_not_blank w col " LIKE ?" _ 'L' (by decide) (by decide),
      joinOn_add_not_blank w col " LIKE ?" _ 'L' (by decide) (by decide)⟩
  · exact ⟨queryApplyAppend w.scopes w.selects false w.or _ db,
      queryApplyAppend w.scopes w.selects false w.or _ db,
      queryApplyAppend w.scopes w.selects false w.or _ db⟩
  · exact ⟨deleteApplyAppend w.scopes false w.or w.useSoftDelete w.useSoftDelete _ db,
      deleteApplyAppend w.scopes false w.or w.useSoftDelete w.useSoftDelete _ db,
      deleteApplyAppend w.scopes false w.or w.useSoftDelete w.useSoftDelete _ db⟩

/-- C9: on the join-on builder, a blank fragment appends no clause node but
still resets the pending connector to AND, so Or() followed by Raw with a
blank fragment is discarded and the next condition attaches with AND. -/
theorem claim_C9_blank_fragment :
    (∀ (w : JoinOnWrapper) (q : String) (args : List Val),
      trimSpaceIsEmpty q = true →
        (w.addCondition q args).conditions = w.conditions
        ∧ (w.addCondition q args).or = false)
    ∧ (∀ (v : Val),
        (((NewJoinOnWrapper.Or []).Raw "   " []).Eq "a" v []).conditions
          = [⟨"a = ?", [v], false⟩]) := by
  constructor
  · intro w q args h
    unfold JoinOnWrapper.addCondition
    rw [if_pos h]
    exact ⟨rfl, rfl⟩
  · intro v
    rfl

/-- C9 witness: a whitespace-only fragment satisfies the blank hypothesis and
the concrete Or-then-blank-then-Eq chain attaches the Eq clause with AND. -/
theorem claim_C9_witness :
    trimSpaceIsEmpty " " = true
    ∧ ((NewJoinOnWrapper.addCondition " " []).conditions = NewJoinOnWrapper.conditions
       ∧ (NewJoinOnWrapper.addCondition " " []).or = false)
    ∧ (((NewJoinOnWrapper.Or []).Raw "   " []).Eq "a" (Val.int 1) []).conditions
        = [⟨"a = ?", [Val.int 1], false⟩] :=
  ⟨by decide,
   claim_C9_blank_fragment.1 NewJoinOnWrapper " " [] (by decide),
   claim_C9_blank_fragment.2 (Val.int 1)⟩

/-- wrap64 is the identity on the int64 range. -/
theorem wrap64_eq_of_range (n : Int) (h1 : -(2 ^ 63) ≤ n) (h2 : n < 2 ^ 63) :
    wrap64 n = n := by
  unfold wrap64
  have e63 : (2 : Int) ^ 63 = 9223372036854775808 := by norm_num
  have e64 : (2 : Int) ^ 64 = 18446744073709551616 := by norm_num
  rw [e63, e64]
  rw [e63] at h1 h2
  rw [Int.emod_eq_of_lt (by omega) (by omega)]
  omega

/-- C10 counterexample: at Current = 2^62 + 1 and Size = 4 (both
representable int64 values with Current at least 1), the wrapping int64
product makes Offset return 0 while the mathematical product
(Current - 1) * Size is 2^64, which is nonzero — so Offset does not return
exactly (Current - 1) * Size as the claim states. -/
theorem claim_C10_counterexample :
    (1 : Int) ≤ 2 ^ 62 + 1
    ∧ (Page.mk (2 ^ 62 + 1) 4 0 ([] : List Unit)).Offset = 0
    ∧ ((2 ^ 62 + 1 : Int) - 1) * 4 ≠ 0 := by
  refine ⟨by norm_num, ?_, by norm_num⟩
  show (if ((2 : Int) ^ 62 + 1) > 0 then wrap64 ((2 ^ 62 + 1 - 1) * 4) else 0) = 0
  rw [if_pos (by norm_num)]
  unfold wrap64
  norm_num

/-- C10 amended: for Current at least 1, Offset returns (Current - 1) * Size
computed in wrapping 64-bit two's-complement arithmetic — equal to the
mathematical product exactly when that product lies in the int64 range; for
Current at most 0 it returns 0; Limit always returns Size unchanged, so a
zero or negative Size propagates into the limit. -/
theorem claim_C10_amended {T : Type} (p : Page T) :
    (1 ≤ p.Current → p.Offset = wrap64 ((p.Current - 1) * p.Size))
    ∧ (1 ≤ p.Current → -(2 ^ 63) ≤ (p.Current - 1) * p.Size →
        (p.Current - 1) * p.Size < 2 ^ 63 →
        p.Offset = (p.Current - 1) * p.Size)
    ∧ (p.Current ≤ 0 → p.Offset = 0)
    ∧ p.Limit = p.Size := by
  refine ⟨?_, ?_, ?_, rfl⟩
  · intro h
    unfold Page.Offset
    rw [if_pos (by omega : p.Current > 0)]
  · intro h h1 h2
    unfold Page.Offset
    rw [if_pos (by omega : p.Current > 0)]
    exact wrap64_eq_of_range _ h1 h2
  · intro h
    unfold Page.Offset
    rw [if_neg (by omega : ¬ p.Current > 0)]

/-- C10 amended witness: concrete pages on both sides of the Current
threshold, with the non-overflow bounds discharged at the in-range input. -/
theorem claim_C10_amended_witness :
    ((1 : Int) ≤ 3 ∧ (Page.mk 3 10 0 ([] : List Unit)).Offset = ((3 : Int) - 1) * 10)
    ∧ ((-2 : Int) ≤ 0 ∧ (Page.mk (-2) 10 0 ([] : List Unit)).Offset = 0) :=
  ⟨⟨by norm_num,
    (claim_C10_amended (Page.mk 3 10 0 ([] : List Unit))).2.1 (by norm_num)
      (by norm_num) (by norm_num)⟩,
   ⟨by norm_num,
    (claim_C10_amended (Page.mk (-2) 10 0 ([] : List Unit))).2.2.1 (by norm_num)⟩⟩
